import Mathlib

/-!
Shallow embedding of the request-processing pipeline of the rbac.js mongo
example application (`src/examples/mongo/app/middleware.js`), together with
the interfaces of its external collaborators (token decoding, the persistence
layer, the permission source) and the `authorize` decision engine of the
library, which the middleware calls.

Each effectful stage is embedded as a pure function from a request to an
outcome paired with the ordered list of collaborator calls it performed
(its event trace).  `Outcome.next req` models calling `next()` with the
(possibly mutated) request; `Outcome.stop r` models terminating with an
HTTP response `r` — once a stage stops, no later handler runs.
-/

namespace Rbac

/-- A granted capability; the engine treats the permission set as opaque. -/
abbrev PermSet := List String

/-- A stored role record (`Role` model): id, name and granted permissions. -/
structure RoleRec where
  oid : String
  name : String
  permissions : PermSet
deriving DecidableEq, Repr

/-- A stored user record (`User` model): credentials, role references and
the permission set of the caller.  Modelled from the spec: the permission source
`CallerIdentity.permissions -> PermSet` (§6) is an external collaborator,
so the already-resolved set is carried on the record. -/
structure UserRec where
  oid : String
  username : String
  password : String
  roles : List String
  permissions : PermSet
deriving DecidableEq, Repr

/-- A stored article record (`Article` model): id, title and owner reference. -/
structure ArticleRec where
  oid : String
  title : String
  owner : String
deriving DecidableEq, Repr

/-- The persistence layer at its interface boundary: the stored collections
queried by `findOne` in the middleware. -/
structure Db where
  users : List UserRec
  roles : List RoleRec
  articles : List ArticleRec

/-- The owner document as eager-loaded by
`Article.findOne({ _id: id }).populate("owner", "-password")`:
every field of the user record except the excluded `password`. -/
structure OwnerView where
  oid : String
  username : String
  roles : List String
  permissions : PermSet
deriving DecidableEq, Repr

/-- Projection of a user record to its owner view: `"-password"` drops
exactly the password field and keeps the rest. -/
def UserRec.toOwnerView (u : UserRec) : OwnerView :=
  ⟨u.oid, u.username, u.roles, u.permissions⟩

/-- An article document with its owner eager-loaded (password excluded). -/
structure PopulatedArticle where
  oid : String
  title : String
  owner : Option OwnerView
deriving DecidableEq, Repr

/-- A user document with its roles eager-loaded by `.populate("roles")`. -/
structure PopulatedUser where
  oid : String
  username : String
  password : String
  roles : List RoleRec
deriving DecidableEq, Repr

/-- A value a resolution stage stores in the request context. -/
inductive DomValue
  | article (a : PopulatedArticle)
  | role (r : RoleRec)
  | user (u : PopulatedUser)
deriving DecidableEq, Repr

/-- The per-request context `req.context`: a mutable bag of named resolved
entities, modelled as a map from property name to value. -/
def Ctx := String → Option DomValue

/-- The empty context object `{}`. -/
def Ctx.empty : Ctx := fun _ => none

/-- Property assignment `req.context.k = v`. -/
def Ctx.insert (c : Ctx) (k : String) (v : DomValue) : Ctx :=
  fun k2 => if k2 = k then some v else c k2

/-- The state of the authorization header of the request, at the boundary of the
external `decodeAuthToken` collaborator: absent, undecodable, or decoding
to a username. -/
inductive TokenState
  | missing
  | invalid
  | valid (username : String)
deriving DecidableEq, Repr

/-- The path parameters of the request (`req.params`). -/
structure Params where
  id : String
deriving DecidableEq, Repr

/-- The Express request object, restricted to the fields the middleware
reads or writes: `req.url`, the authorization header, `req.params`,
`req.context` and the attached caller identity `req.user`. -/
structure Req where
  url : String
  token : TokenState
  params : Params
  context : Ctx
  user : Option UserRec

/-- An HTTP response produced by `res.status(s).json({ message })`. -/
structure Response where
  status : Nat
  message : String
deriving DecidableEq, Repr

/-- What a stage does with control: call `next()` with the (possibly
mutated) request, or terminate the pipeline with a response. -/
inductive Outcome
  | next (req : Req)
  | stop (r : Response)

/-- Whether the stage called `next()`. -/
def Outcome.continues : Outcome → Bool
  | .next _ => true
  | .stop _ => false

/-- A collaborator call performed by a stage, recorded in execution order. -/
inductive Ev
  | decodeToken
  | lookupUser (username : String)
  | permSource
  | registryLookup (entity : String)
  | actionLookup (entity action : String)
  | predicateEval (entity action : String)
  | dbFind (kind oid : String)
deriving DecidableEq, Repr

/-- Modelled from the spec: `decodeAuthToken(request) -> {username} | fails`
(§6) — the external token-decoding collaborator, absent from `src/`.
It fails for a missing or malformed token and yields the username
otherwise. -/
def decodeAuthToken (req : Req) : Except Unit String :=
  match req.token with
  | .valid u => .ok u
  | _ => .error ()

/-- `User.findOne({ username })`: resolves the first matching record, or
`null` when no record matches (no `.orFail()` here). -/
def Db.findUserByUsername (db : Db) (username : String) : Option UserRec :=
  db.users.find? (fun u => u.username = username)

/-- `Role.findOne({ _id: id })`. -/
def Db.findRoleById (db : Db) (oid : String) : Option RoleRec :=
  db.roles.find? (fun r => r.oid = oid)

/-- `User.findOne({ _id: id })` before population. -/
def Db.findUserById (db : Db) (oid : String) : Option UserRec :=
  db.users.find? (fun u => u.oid = oid)

/-- `Article.findOne({ _id: id })` before population. -/
def Db.findArticleById (db : Db) (oid : String) : Option ArticleRec :=
  db.articles.find? (fun a => a.oid = oid)

/-- `Article.findOne({ _id: id }).populate("owner", "-password")`: the
article with its owner document eager-loaded, password excluded.
`.orFail()` is modelled by the caller pattern-matching on `none`. -/
def Db.findArticlePopulated (db : Db) (oid : String) : Option PopulatedArticle :=
  (db.findArticleById oid).map fun a =>
    ⟨a.oid, a.title, (db.findUserById a.owner).map UserRec.toOwnerView⟩

/-- `User.findOne({ _id: id }).populate("roles")`: the user with its role
documents eager-loaded. -/
def Db.findUserPopulated (db : Db) (oid : String) : Option PopulatedUser :=
  (db.findUserById oid).map fun u =>
    ⟨u.oid, u.username, u.password, u.roles.filterMap db.findRoleById⟩

/-- `await req.user.permissions`: the permission source read off the
attached caller identity.  Reading `.permissions` off an absent (`null`)
caller raises a `TypeError`, modelled as `.error`. -/
def getPermissions (user : Option UserRec) : Except Unit PermSet :=
  match user with
  | none => .error ()
  | some u => .ok u.permissions

/-- A policy predicate: a function of the permission set and the request
(the optional context argument the middleware passes as `req`). -/
abbrev Predicate := PermSet → Req → Bool

/-- A policy record: action name → predicate. -/
abbrev Policy := List (String × Predicate)

/-- The policy registry: entity name → policy record. -/
abbrev Registry := List (String × Policy)

/-- Exact-string lookup of the policy record of an entity in the registry. -/
def lookupPolicy (r : Registry) (entity : String) : Option Policy :=
  (r.find? (fun p => p.1 = entity)).map Prod.snd

/-- Exact-string lookup of the predicate of an action in a policy record. -/
def lookupAction (p : Policy) (action : String) : Option Predicate :=
  (p.find? (fun q => q.1 = action)).map Prod.snd

/-- Modelled from the spec: the function
`authorize(action, entity, permissions, policies, req)` of the library is
not under `src/`; per §9 (the source throws and catches broadly, and the
broad catch-all in the authorization stage conflates PolicyNotFound /
ActionNotFound with any other thrown fault) and the comment inside the
calling stage (middleware.js line 80: "two exceptions are possible:
missing policy or missing policy action"), it looks the entity up in the
registry, then the action in the policy record, throwing a
`[rbactrl]:`-formatted exception when either is absent, and otherwise
returns the boolean result of the predicate.
The thrown exception is `.error`; the trace records the lookups and the
predicate evaluation in order. -/
def authorize (action entity : String) (permissions : PermSet)
    (policies : Registry) (req : Req) : Except String Bool × List Ev :=
  match lookupPolicy policies entity with
  | none =>
      (.error ("[rbactrl]: Policy for entity " ++ entity ++ " does not exist."),
       [.registryLookup entity])
  | some policy =>
      match lookupAction policy action with
      | none =>
          (.error ("[rbactrl]: Policy action " ++ action ++ " does not exist."),
           [.registryLookup entity, .actionLookup entity action])
      | some pred =>
          (.ok (pred permissions req),
           [.registryLookup entity, .actionLookup entity action,
            .predicateEval entity action])

/-- `init`: sets `req.context` to an empty object and calls `next()`. -/
def init (req : Req) : Outcome × List Ev :=
  (.next { req with context := Ctx.empty }, [])

/-- `authenticate`: public routes `/` and `/auth/login` proceed directly to
the next handler; otherwise the token is decoded and the matching user
record is attached as `req.user`; a thrown decoding failure is caught and
answered with 401. -/
def authenticate (db : Db) (req : Req) : Outcome × List Ev :=
  if req.url = "/" ∨ req.url = "/auth/login" then (.next req, [])
  else
    match decodeAuthToken req with
    | .error _ =>
        (.stop ⟨401, "Sorry :( Log in and try again."⟩, [.decodeToken])
    | .ok username =>
        (.next { req with user := db.findUserByUsername username },
         [.decodeToken, .lookupUser username])

/-- The stage produced by `can(action, entity)`: it awaits
`req.user.permissions`, calls `authorize`, answers 403 when the result is
falsy, calls `next()` when truthy, and maps any caught exception (from the
permission read or from `authorize`) to 500. -/
def can (action entity : String) (policies : Registry) (req : Req) :
    Outcome × List Ev :=
  match getPermissions req.user with
  | .error _ =>
      (.stop ⟨500, "Sorry :( Something bad happened."⟩, [.permSource])
  | .ok userPermissions =>
      match authorize action entity userPermissions policies req with
      | (.error _, tr) =>
          (.stop ⟨500, "Sorry :( Something bad happened."⟩, .permSource :: tr)
      | (.ok ok, tr) =>
          if !ok then
            (.stop ⟨403, "You are not authorized to perform this action."⟩,
             .permSource :: tr)
          else (.next req, .permSource :: tr)

/-- `processArticleParam`: resolves `req.params.id` to an article with its
owner populated (password excluded); `.orFail()` throws on a miss, caught
and answered with 404; on success the article is stored at
`req.context.article`. -/
def processArticleParam (db : Db) (req : Req) : Outcome × List Ev :=
  match db.findArticlePopulated req.params.id with
  | none =>
      (.stop ⟨404, "The article does not exist."⟩,
       [.dbFind "article" req.params.id])
  | some a =>
      (.next { req with context := req.context.insert "article" (.article a) },
       [.dbFind "article" req.params.id])

/-- `processRoleParam`: resolves `req.params.id` to a role; a miss throws
via `.orFail()`, caught and answered with 404; on success the role is
stored at `req.context.role`. -/
def processRoleParam (db : Db) (req : Req) : Outcome × List Ev :=
  match db.findRoleById req.params.id with
  | none =>
      (.stop ⟨404, "The role does not exist."⟩, [.dbFind "role" req.params.id])
  | some r =>
      (.next { req with context := req.context.insert "role" (.role r) },
       [.dbFind "role" req.params.id])

/-- `processUserParam`: resolves `req.params.id` to a user with its roles
populated; a miss throws via `.orFail()`, caught and answered with 404; on
success the user is stored at `req.context.user`. -/
def processUserParam (db : Db) (req : Req) : Outcome × List Ev :=
  match db.findUserPopulated req.params.id with
  | none =>
      (.stop ⟨404, "The user does not exist."⟩, [.dbFind "user" req.params.id])
  | some u =>
      (.next { req with context := req.context.insert "user" (.user u) },
       [.dbFind "user" req.params.id])

/-! ## Concrete fixtures used by witnesses and counterexamples -/

/-- A role granting the `article.edit` capability. -/
def roleEditor : RoleRec := ⟨"r1", "editor", ["article.edit"]⟩

/-- A stored user holding the editor role. -/
def userAlice : UserRec := ⟨"u1", "alice", "pw", ["r1"], ["article.edit"]⟩

/-- A stored user with no roles and no permissions. -/
def userBob : UserRec := ⟨"u2", "bob", "pw", [], []⟩

/-- A stored article owned by `userAlice`. -/
def articleA : ArticleRec := ⟨"a1", "Hello", "u1"⟩

/-- A small populated store. -/
def db0 : Db := ⟨[userAlice, userBob], [roleEditor], [articleA]⟩

/-- An empty store: every lookup misses. -/
def dbEmpty : Db := ⟨[], [], []⟩

/-- The predicate of the `article.edit` policy action. -/
def predEdit : Predicate := fun perms _ => perms.contains "article.edit"

/-- A registry with a single `article` policy carrying an `edit` action. -/
def registry0 : Registry := [("article", [("edit", predEdit)])]

/-- A request for the public root route, no token. -/
def reqPublic : Req := ⟨"/", .missing, ⟨"a1"⟩, Ctx.empty, none⟩

/-- A request for the public login route, no token. -/
def reqLogin : Req := ⟨"/auth/login", .missing, ⟨"a1"⟩, Ctx.empty, none⟩

/-- A protected request with an undecodable token. -/
def reqBadToken : Req := ⟨"/articles/a1", .invalid, ⟨"a1"⟩, Ctx.empty, none⟩

/-- A protected request whose token decodes to a username that matches no
stored user. -/
def reqGhost : Req := ⟨"/articles/a1", .valid "ghost", ⟨"a1"⟩, Ctx.empty, none⟩

/-- A protected request with `userAlice` already attached as caller. -/
def reqAlice : Req := ⟨"/articles/a1", .valid "alice", ⟨"a1"⟩, Ctx.empty, some userAlice⟩

/-- Like `reqAlice` but with the permissionless `userBob` attached. -/
def reqBob : Req := ⟨"/articles/a1", .valid "bob", ⟨"a1"⟩, Ctx.empty, some userBob⟩

/-- A request addressing role `r1`, with `userAlice` attached. -/
def reqRoleP : Req := ⟨"/roles/r1", .valid "alice", ⟨"r1"⟩, Ctx.empty, some userAlice⟩

/-- A request addressing user `u1`, with `userAlice` attached. -/
def reqUserP : Req := ⟨"/users/u1", .valid "alice", ⟨"u1"⟩, Ctx.empty, some userAlice⟩

/-! ## Helper lemmas about context assignment -/

/-- Reading back the key just assigned. -/
theorem Ctx.insert_same (c : Ctx) (k : String) (v : DomValue) :
    Ctx.insert c k v k = some v := by
  simp [Ctx.insert]

/-- Assignment leaves every other key unchanged. -/
theorem Ctx.insert_other (c : Ctx) (k : String) (v : DomValue) (k2 : String)
    (h : k2 ≠ k) : Ctx.insert c k v k2 = c k2 := by
  simp [Ctx.insert, h]

/-- Assignment never removes a key that was present. -/
theorem Ctx.insert_mono (c : Ctx) (k : String) (v : DomValue) (k2 : String)
    (w : DomValue) (h : c k2 = some w) : ∃ w2, Ctx.insert c k v k2 = some w2 := by
  by_cases hk : k2 = k
  · exact ⟨v, by simp [Ctx.insert, hk]⟩
  · exact ⟨w, by simp [Ctx.insert, hk, h]⟩

/-! ## Claim theorems -/

/-- C2 (code_bug evaluation): at the failing input — a protected request
whose token decodes to username `"ghost"` while the store has no such
user — `authenticate` does not terminate with 401: `User.findOne` resolves
`null` (no `.orFail()`), `req.user` is set to that `null`, and the stage
calls `next()`.  This contradicts the claim (and the doc
comment of the stage itself) that any failure, including "caller not found", yields 401. -/
theorem authenticate_unknown_user_continues :
    db0.findUserByUsername "ghost" = none ∧
    decodeAuthToken reqGhost = Except.ok "ghost" ∧
    authenticate db0 reqGhost =
      (Outcome.next reqGhost, [Ev.decodeToken, Ev.lookupUser "ghost"]) ∧
    (authenticate db0 reqGhost).1.continues = true :=
  ⟨rfl, rfl, rfl, rfl⟩

/-- C3 (counterexample): `authorize` does not return an ordinary outcome for
a missing policy — at the concrete input where the registry has no record
for entity `"widget"`, it raises (the thrown `[rbactrl]:` exception),
rather than returning a `PolicyNotFound` value the caller could branch
on. -/
theorem authorize_missing_policy_raises :
    lookupPolicy registry0 "widget" = none ∧
    (authorize "edit" "widget" userAlice.permissions registry0 reqAlice).1 =
      Except.error "[rbactrl]: Policy for entity widget does not exist." :=
  ⟨rfl, rfl⟩

/-- C3 (amended): `authorize` never raises for a normal allow/deny — for
every input whose entity has a registered policy record with a predicate
for the action, it returns the boolean result of the predicate, and `Denied`
(a false predicate) is an ordinary return value, not an exception; only a
missing policy or missing policy action raises, and the calling stage
catches that and maps it to 500. -/
theorem authorize_registered_no_throw
    (action entity : String) (perms : PermSet) (policies : Registry) (req : Req)
    (policy : Policy) (pred : Predicate)
    (hpol : lookupPolicy policies entity = some policy)
    (hact : lookupAction policy action = some pred) :
    (authorize action entity perms policies req).1 = Except.ok (pred perms req) := by
  simp [authorize, hpol, hact]

/-- Witness for `authorize_registered_no_throw` at the concrete registry
`registry0` and action `edit` on entity `article`. -/
theorem authorize_registered_no_throw_witness :
    (authorize "edit" "article" userAlice.permissions registry0 reqAlice).1 =
      Except.ok (predEdit userAlice.permissions reqAlice) :=
  authorize_registered_no_throw "edit" "article" userAlice.permissions registry0
    reqAlice [("edit", predEdit)] predEdit rfl rfl

/-- C4: the authentication bypass is an exact string match on the request
target: a request whose url is exactly `/` or `/auth/login` proceeds to
the next handler unconditionally and no token decoding happens; for every
other url, a request without a valid token is answered with 401 and the
generic message. -/
theorem authenticate_bypass_exact_match (db : Db) (req : Req) :
    ((req.url = "/" ∨ req.url = "/auth/login") →
      (authenticate db req).1 = Outcome.next req ∧
      Ev.decodeToken ∉ (authenticate db req).2) ∧
    (¬(req.url = "/" ∨ req.url = "/auth/login") →
      decodeAuthToken req = Except.error () →
      authenticate db req =
        (Outcome.stop ⟨401, "Sorry :( Log in and try again."⟩, [Ev.decodeToken])) := by
  constructor
  · intro h
    simp [authenticate, h]
  · intro h htok
    simp [authenticate, h, htok]

/-- Witness for `authenticate_bypass_exact_match`: the root and login
requests pass through without decoding; the protected request with a bad
token is answered 401. -/
theorem authenticate_bypass_exact_match_witness :
    ((authenticate db0 reqPublic).1 = Outcome.next reqPublic ∧
      Ev.decodeToken ∉ (authenticate db0 reqPublic).2) ∧
    ((authenticate db0 reqLogin).1 = Outcome.next reqLogin ∧
      Ev.decodeToken ∉ (authenticate db0 reqLogin).2) ∧
    authenticate db0 reqBadToken =
      (Outcome.stop ⟨401, "Sorry :( Log in and try again."⟩, [Ev.decodeToken]) :=
  ⟨(authenticate_bypass_exact_match db0 reqPublic).1 (Or.inl rfl),
   (authenticate_bypass_exact_match db0 reqLogin).1 (Or.inr rfl),
   (authenticate_bypass_exact_match db0 reqBadToken).2 (by decide) rfl⟩

/-- C5: for a request reaching the stage produced by `can(action, entity)`
whose permission read succeeds and whose entity/action pair is registered:
a true predicate (`Allowed`) makes the stage call the next handler, and a
false predicate (`Denied`) makes it terminate with 403 and the
"not authorized" message, never calling the next handler. -/
theorem can_allow_continue_deny_403
    (action entity : String) (policies : Registry) (req : Req)
    (perms : PermSet) (policy : Policy) (pred : Predicate)
    (hperm : getPermissions req.user = Except.ok perms)
    (hpol : lookupPolicy policies entity = some policy)
    (hact : lookupAction policy action = some pred) :
    (pred perms req = true →
      (can action entity policies req).1 = Outcome.next req) ∧
    (pred perms req = false →
      can action entity policies req =
        (Outcome.stop ⟨403, "You are not authorized to perform this action."⟩,
         [Ev.permSource, Ev.registryLookup entity, Ev.actionLookup entity action,
          Ev.predicateEval entity action])) := by
  constructor <;> intro hb <;> simp [can, hperm, authorize, hpol, hact, hb]

/-- Witness for `can_allow_continue_deny_403`: alice (holding
`article.edit`) is let through; bob (no permissions) is answered 403. -/
theorem can_allow_continue_deny_403_witness :
    (can "edit" "article" registry0 reqAlice).1 = Outcome.next reqAlice ∧
    can "edit" "article" registry0 reqBob =
      (Outcome.stop ⟨403, "You are not authorized to perform this action."⟩,
       [Ev.permSource, Ev.registryLookup "article", Ev.actionLookup "article" "edit",
        Ev.predicateEval "article" "edit"]) :=
  ⟨(can_allow_continue_deny_403 "edit" "article" registry0 reqAlice
      userAlice.permissions [("edit", predEdit)] predEdit rfl rfl rfl).1 rfl,
   (can_allow_continue_deny_403 "edit" "article" registry0 reqBob
      userBob.permissions [("edit", predEdit)] predEdit rfl rfl rfl).2 rfl⟩

/-- C1 (counterexample): at a concrete input where the registry has no
record for the entity, the stage produced by `can` does evaluate the
permission source of the caller — `await req.user.permissions` runs before
`authorize` is even called, so a missing policy does not prevent the
permission set from being obtained; the stage then answers 500. -/
theorem permSource_evaluated_despite_missing_policy :
    lookupPolicy registry0 "widget" = none ∧
    Ev.permSource ∈ (can "edit" "widget" registry0 reqAlice).2 ∧
    (can "edit" "widget" registry0 reqAlice).1 =
      Outcome.stop ⟨500, "Sorry :( Something bad happened."⟩ := by
  refine ⟨rfl, ?_, rfl⟩
  have h : (can "edit" "widget" registry0 reqAlice).2 =
      [Ev.permSource, Ev.registryLookup "widget"] := rfl
  rw [h]
  simp

/-- C1 (amended): the stage produced by `can` evaluates the permission
source first — its event trace always begins with the permission read —
and the short-circuit for a missing policy record (or missing action
predicate) happens before predicate evaluation: in those cases no policy
predicate is ever invoked. -/
theorem can_missing_policy_no_predicate_eval
    (action entity : String) (policies : Registry) (req : Req)
    (hmiss : lookupPolicy policies entity = none ∨
      ∃ policy, lookupPolicy policies entity = some policy ∧
        lookupAction policy action = none) :
    (can action entity policies req).2.head? = some Ev.permSource ∧
    ∀ e a, Ev.predicateEval e a ∉ (can action entity policies req).2 := by
  cases hp : getPermissions req.user with
  | error e => simp [can, hp]
  | ok perms =>
    rcases hmiss with h | ⟨policy, h, ha⟩
    · simp [can, hp, authorize, h]
    · simp [can, hp, authorize, h, ha]

/-- Witness for `can_missing_policy_no_predicate_eval`: the registry
`registry0` has no record for `"widget"`. -/
theorem can_missing_policy_no_predicate_eval_witness :
    (can "edit" "widget" registry0 reqAlice).2.head? = some Ev.permSource ∧
    ∀ e a, Ev.predicateEval e a ∉ (can "edit" "widget" registry0 reqAlice).2 :=
  can_missing_policy_no_predicate_eval "edit" "widget" registry0 reqAlice (Or.inl rfl)

/-- C6: each resource-resolution stage, on a lookup miss (or any lookup
error, which `.orFail()` folds into the same thrown path), terminates with
404 and its entity-specific message, performing only the single lookup —
the continuation is never taken, so the context key of the stage is never
assigned and the request context is unchanged on the failure path. -/
theorem resolution_missing_404_context_unchanged (db : Db) (req : Req) :
    (db.findArticlePopulated req.params.id = none →
      processArticleParam db req =
        (Outcome.stop ⟨404, "The article does not exist."⟩,
         [Ev.dbFind "article" req.params.id])) ∧
    (db.findRoleById req.params.id = none →
      processRoleParam db req =
        (Outcome.stop ⟨404, "The role does not exist."⟩,
         [Ev.dbFind "role" req.params.id])) ∧
    (db.findUserPopulated req.params.id = none →
      processUserParam db req =
        (Outcome.stop ⟨404, "The user does not exist."⟩,
         [Ev.dbFind "user" req.params.id])) := by
  refine ⟨?_, ?_, ?_⟩ <;> intro h <;>
    simp [processArticleParam, processRoleParam, processUserParam, h]

/-- Witness for `resolution_missing_404_context_unchanged`: against the
empty store every resolution stage answers 404. -/
theorem resolution_missing_404_context_unchanged_witness :
    processArticleParam dbEmpty reqAlice =
      (Outcome.stop ⟨404, "The article does not exist."⟩, [Ev.dbFind "article" "a1"]) ∧
    processRoleParam dbEmpty reqAlice =
      (Outcome.stop ⟨404, "The role does not exist."⟩, [Ev.dbFind "role" "a1"]) ∧
    processUserParam dbEmpty reqAlice =
      (Outcome.stop ⟨404, "The user does not exist."⟩, [Ev.dbFind "user" "a1"]) :=
  ⟨(resolution_missing_404_context_unchanged dbEmpty reqAlice).1 rfl,
   (resolution_missing_404_context_unchanged dbEmpty reqAlice).2.1 rfl,
   (resolution_missing_404_context_unchanged dbEmpty reqAlice).2.2 rfl⟩

/-- C7 (counterexample): the bodies the code actually sends differ from the
strings of the contract table — the 401 body is `"Sorry :( Log in and try
again."`, not `"Sorry — log in and try again."`, and the 500 body is
`"Sorry :( Something bad happened."`, not `"Sorry — something bad
happened."`, shown at concrete failing requests. -/
theorem response_message_mismatch :
    (authenticate db0 reqBadToken).1 =
      Outcome.stop ⟨401, "Sorry :( Log in and try again."⟩ ∧
    "Sorry :( Log in and try again." ≠ "Sorry — log in and try again." ∧
    (can "edit" "widget" registry0 reqAlice).1 =
      Outcome.stop ⟨500, "Sorry :( Something bad happened."⟩ ∧
    "Sorry :( Something bad happened." ≠ "Sorry — something bad happened." :=
  ⟨rfl, by decide, rfl, by decide⟩

/-- C7 (amended): every 401 response produced by `authenticate` carries the
body message `"Sorry :( Log in and try again."` (indeed every terminating
response of `authenticate` is such a 401), and every 500 response produced
by a stage from `can` carries the body message
`"Sorry :( Something bad happened."`. -/
theorem failure_response_messages (db : Db) (req : Req) (action entity : String)
    (policies : Registry) :
    (∀ r, (authenticate db req).1 = Outcome.stop r →
      r.status = 401 ∧ r.message = "Sorry :( Log in and try again.") ∧
    (∀ r, (can action entity policies req).1 = Outcome.stop r → r.status = 500 →
      r.message = "Sorry :( Something bad happened.") := by
  constructor
  · intro r hr
    unfold authenticate at hr
    split at hr
    · simp at hr
    · split at hr
      · simp only [Outcome.stop.injEq] at hr
        subst hr
        exact ⟨rfl, rfl⟩
      · simp at hr
  · intro r hr h500
    unfold can at hr
    split at hr
    · simp only [Outcome.stop.injEq] at hr
      subst hr
      rfl
    · split at hr
      · simp only [Outcome.stop.injEq] at hr
        subst hr
        rfl
      · split at hr
        · simp only [Outcome.stop.injEq] at hr
          subst hr
          exact absurd h500 (by decide)
        · simp at hr

/-- Witness for `failure_response_messages` at the concrete bad-token
request: the 401 and 500 responses it induces carry the messages of the code. -/
theorem failure_response_messages_witness :
    (Response.status ⟨401, "Sorry :( Log in and try again."⟩ = 401 ∧
      Response.message ⟨401, "Sorry :( Log in and try again."⟩ =
        "Sorry :( Log in and try again.") ∧
    Response.message ⟨500, "Sorry :( Something bad happened."⟩ =
      "Sorry :( Something bad happened." :=
  ⟨(failure_response_messages db0 reqBadToken "edit" "widget" registry0).1 _ rfl,
   (failure_response_messages db0 reqBadToken "edit" "widget" registry0).2 _ rfl rfl⟩

/-- The article value stored by `processArticleParam` on `db0`/`reqAlice`. -/
def artVal : DomValue := .article ⟨"a1", "Hello", some (UserRec.toOwnerView userAlice)⟩

/-- The role value stored by `processRoleParam` on `db0`/`reqRoleP`. -/
def roleVal : DomValue := .role roleEditor

/-- The user value stored by `processUserParam` on `db0`/`reqUserP`. -/
def userVal : DomValue := .user ⟨"u1", "alice", "pw", [roleEditor]⟩

/-- `reqAlice` after the article stage assigned `context.article`. -/
def reqAliceArt : Req :=
  { reqAlice with context := Ctx.insert reqAlice.context "article" artVal }

/-- `reqRoleP` after the role stage assigned `context.role`. -/
def reqRoleP2 : Req :=
  { reqRoleP with context := Ctx.insert reqRoleP.context "role" roleVal }

/-- `reqUserP` after the user stage assigned `context.user`. -/
def reqUserP2 : Req :=
  { reqUserP with context := Ctx.insert reqUserP.context "user" userVal }

/-- C8: across the sequence `init`, `processArticleParam`,
`processRoleParam`, `processUserParam`, the context keys written are
pairwise distinct and only ever added: `init` establishes the empty
context, and each resolution stage that continues assigns exactly its own
key (`article`, `role`, `user`), leaves every other key unchanged, and
never removes a key that was present. -/
theorem context_keys_distinct_monotone (db : Db) (req : Req) :
    (∀ req2, (init req).1 = Outcome.next req2 → req2.context = Ctx.empty) ∧
    (∀ req2, (processArticleParam db req).1 = Outcome.next req2 →
      (∃ v, req2.context "article" = some v) ∧
      (∀ k, k ≠ "article" → req2.context k = req.context k) ∧
      (∀ k w, req.context k = some w → ∃ w2, req2.context k = some w2)) ∧
    (∀ req2, (processRoleParam db req).1 = Outcome.next req2 →
      (∃ v, req2.context "role" = some v) ∧
      (∀ k, k ≠ "role" → req2.context k = req.context k) ∧
      (∀ k w, req.context k = some w → ∃ w2, req2.context k = some w2)) ∧
    (∀ req2, (processUserParam db req).1 = Outcome.next req2 →
      (∃ v, req2.context "user" = some v) ∧
      (∀ k, k ≠ "user" → req2.context k = req.context k) ∧
      (∀ k w, req.context k = some w → ∃ w2, req2.context k = some w2)) ∧
    (("article" : String) ≠ "role" ∧ ("article" : String) ≠ "user" ∧
      ("role" : String) ≠ "user") := by
  refine ⟨?_, ?_, ?_, ?_, by decide, by decide, by decide⟩
  · intro req2 hr
    simp only [init, Outcome.next.injEq] at hr
    subst hr
    rfl
  · intro req2 hr
    unfold processArticleParam at hr
    split at hr
    · simp at hr
    · simp only [Outcome.next.injEq] at hr
      subst hr
      exact ⟨⟨_, Ctx.insert_same req.context "article" _⟩,
        fun k hk => Ctx.insert_other _ _ _ k hk,
        fun k w h => Ctx.insert_mono _ _ _ k w h⟩
  · intro req2 hr
    unfold processRoleParam at hr
    split at hr
    · simp at hr
    · simp only [Outcome.next.injEq] at hr
      subst hr
      exact ⟨⟨_, Ctx.insert_same req.context "role" _⟩,
        fun k hk => Ctx.insert_other _ _ _ k hk,
        fun k w h => Ctx.insert_mono _ _ _ k w h⟩
  · intro req2 hr
    unfold processUserParam at hr
    split at hr
    · simp at hr
    · simp only [Outcome.next.injEq] at hr
      subst hr
      exact ⟨⟨_, Ctx.insert_same req.context "user" _⟩,
        fun k hk => Ctx.insert_other _ _ _ k hk,
        fun k w h => Ctx.insert_mono _ _ _ k w h⟩

/-- Witness for `context_keys_distinct_monotone`: concrete runs of the
four stages on `db0`, each continuing and exhibiting the added key. -/
theorem context_keys_distinct_monotone_witness :
    Req.context reqAlice = Ctx.empty ∧
    (∃ v, reqAliceArt.context "article" = some v) ∧
    reqAliceArt.context "role" = reqAlice.context "role" ∧
    (∃ v, reqRoleP2.context "role" = some v) ∧
    (∃ v, reqUserP2.context "user" = some v) := by
  have h := context_keys_distinct_monotone db0 reqAlice
  have hR := context_keys_distinct_monotone db0 reqRoleP
  have hU := context_keys_distinct_monotone db0 reqUserP
  exact ⟨h.1 reqAlice rfl, (h.2.1 reqAliceArt rfl).1,
    (h.2.1 reqAliceArt rfl).2.1 "role" (by decide),
    (hR.2.2.1 reqRoleP2 rfl).1, (hU.2.2.2.1 reqUserP2 rfl).1⟩

/-- C9: whenever a resolution stage continues, the stored context entry is
the populated document: `processUserParam` stores the user with its role
documents eager-loaded (each role id resolved against the store), and
`processArticleParam` stores the article with its owner document
eager-loaded through `UserRec.toOwnerView`, which excludes the password
field. -/
theorem resolution_populates_relations (db : Db) (req : Req) :
    (∀ req2, (processUserParam db req).1 = Outcome.next req2 →
      ∃ u, db.findUserById req.params.id = some u ∧
        req2.context "user" = some (DomValue.user
          ⟨u.oid, u.username, u.password, u.roles.filterMap db.findRoleById⟩)) ∧
    (∀ req2, (processArticleParam db req).1 = Outcome.next req2 →
      ∃ a, db.findArticleById req.params.id = some a ∧
        req2.context "article" = some (DomValue.article
          ⟨a.oid, a.title, (db.findUserById a.owner).map UserRec.toOwnerView⟩)) := by
  constructor
  · intro req2 hr
    unfold processUserParam at hr
    split at hr
    · simp at hr
    · rename_i pu hpu
      simp only [Outcome.next.injEq] at hr
      subst hr
      unfold Db.findUserPopulated at hpu
      cases hu : db.findUserById req.params.id with
      | none => rw [hu] at hpu; simp at hpu
      | some u =>
        rw [hu] at hpu
        simp only [Option.map_some', Option.some.injEq] at hpu
        subst hpu
        exact ⟨u, rfl, Ctx.insert_same req.context "user" _⟩
  · intro req2 hr
    unfold processArticleParam at hr
    split at hr
    · simp at hr
    · rename_i pa hpa
      simp only [Outcome.next.injEq] at hr
      subst hr
      unfold Db.findArticlePopulated at hpa
      cases ha : db.findArticleById req.params.id with
      | none => rw [ha] at hpa; simp at hpa
      | some a =>
        rw [ha] at hpa
        simp only [Option.map_some', Option.some.injEq] at hpa
        subst hpa
        exact ⟨a, rfl, Ctx.insert_same req.context "article" _⟩

/-- Witness for `resolution_populates_relations`: resolving user `u1`
stores it with `roleEditor` eager-loaded, and resolving article `a1`
stores it with the owner view of alice (password excluded). -/
theorem resolution_populates_relations_witness :
    (∃ u, db0.findUserById "u1" = some u ∧
      reqUserP2.context "user" = some (DomValue.user
        ⟨u.oid, u.username, u.password, u.roles.filterMap db0.findRoleById⟩)) ∧
    (∃ a, db0.findArticleById "a1" = some a ∧
      reqAliceArt.context "article" = some (DomValue.article
        ⟨a.oid, a.title, (db0.findUserById a.owner).map UserRec.toOwnerView⟩)) :=
  ⟨(resolution_populates_relations db0 reqUserP).1 reqUserP2 rfl,
   (resolution_populates_relations db0 reqAlice).2 reqAliceArt rfl⟩

/-- C10: a protected request whose token decodes to a username matching no
stored user is not rejected by `authenticate` — the stage attaches an
absent (`null`) caller identity and continues; if such a request then
reaches a stage produced by `can`, reading `.permissions` off the absent
caller faults and the stage terminates with 500, not 401. -/
theorem unknown_user_reaches_can_500 (db : Db) (req : Req)
    (username action entity : String) (policies : Registry)
    (hurl : ¬(req.url = "/" ∨ req.url = "/auth/login"))
    (htok : decodeAuthToken req = Except.ok username)
    (hmiss : db.findUserByUsername username = none) :
    ∃ req2, (authenticate db req).1 = Outcome.next req2 ∧ req2.user = none ∧
      (can action entity policies req2).1 =
        Outcome.stop ⟨500, "Sorry :( Something bad happened."⟩ := by
  refine ⟨{ req with user := none }, ?_, rfl, rfl⟩
  simp [authenticate, hurl, htok, hmiss]

/-- Witness for `unknown_user_reaches_can_500` at the concrete ghost
request against `db0`. -/
theorem unknown_user_reaches_can_500_witness :
    ∃ req2, (authenticate db0 reqGhost).1 = Outcome.next req2 ∧ req2.user = none ∧
      (can "edit" "article" registry0 req2).1 =
        Outcome.stop ⟨500, "Sorry :( Something bad happened."⟩ :=
  unknown_user_reaches_can_500 db0 reqGhost "ghost" "edit" "article" registry0
    (by decide) rfl rfl

end Rbac
